import Mathlib

/-!
Verification of the MeisterKI offer-calculation engine.

The engine lives in `src/index.ts` (`generateOffer`) with a second copy in
the `offerEngine` module embedded in `src/README.md`
(`generateOfferFromInput`).  JavaScript numbers are embedded as rationals
(`ℚ`), with `Math.round` modelled as `⌊x + 1/2⌋` (round half toward +∞,
which is JavaScript's behaviour).  The time-based `id` and `createdAt`
fields of an `Offer` are produced from the wall clock and are outside the
pure model; every other field is embedded.
-/

namespace Calcura

/-- The `Trade` union type: `"maler" | "elektro" | "sanitär" | "boden" | "dach"`. -/
inductive Trade where
  | maler
  | elektro
  | sanitaer
  | boden
  | dach
deriving DecidableEq, Repr

/-- A contact record (`company` / `customer` shape in `OfferInput`). -/
structure Party where
  name : String
  address : Option String := none
  email : Option String := none
  phone : Option String := none
deriving DecidableEq, Repr

/-- A room: `{ name: string; width_m: number; length_m: number; height_m?: number }`. -/
structure Room where
  name : String
  width_m : ℚ
  length_m : ℚ
  height_m : Option ℚ := none
deriving DecidableEq, Repr

/-- An explicit material: `{ name: string; unitPrice: number; quantity: number; unit: string }`. -/
structure Material where
  name : String
  unitPrice : ℚ
  quantity : ℚ
  unit : String
deriving DecidableEq, Repr

/-- The `project` field of an `OfferInput`. -/
structure Project where
  title : String
  description : Option String := none
  rooms : Option (List Room) := none
  materials : Option (List Material) := none
  notes : Option String := none
deriving DecidableEq, Repr

/-- `OfferInput` from `src/index.ts`. -/
structure OfferInput where
  trade : Trade
  company : Party
  customer : Party
  project : Project
  laborRatePerHour : ℚ
  marginPercentage : Option ℚ := none
  taxRatePercentage : Option ℚ := none
deriving DecidableEq, Repr

/-- `OfferItem` from `src/index.ts`. -/
structure OfferItem where
  description : String
  quantity : ℚ
  unit : String
  unitPrice : ℚ
  total : ℚ
deriving DecidableEq, Repr

instance : Inhabited OfferItem :=
  ⟨{ description := "", quantity := 0, unit := "", unitPrice := 0, total := 0 }⟩

/-- `Offer` from `src/index.ts`, without the time-based `id` / `createdAt`. -/
structure Offer where
  input : OfferInput
  items : List OfferItem
  subtotal : ℚ
  margin : ℚ
  totalBeforeTax : ℚ
  tax : ℚ
  total : ℚ
  currency : String
deriving DecidableEq, Repr

/-- `function round2(n: number) { return Math.round(n * 100) / 100; }` —
`Math.round x = ⌊x + 1/2⌋` (half rounds toward +∞ in JavaScript). -/
def round2 (n : ℚ) : ℚ := ((n * 100 + 1/2).floor : ℚ) / 100

/-- Effective room height: `room.height_m ?? 2.6`. -/
def effHeight (room : Room) : ℚ := room.height_m.getD (13/5)

/-- `wallArea = 2 * (room.width_m + room.length_m) * h`. -/
def wallArea (room : Room) : ℚ := 2 * (room.width_m + room.length_m) * effHeight room

/-- `ceilingArea = room.width_m * room.length_m`. -/
def ceilingArea (room : Room) : ℚ := room.width_m * room.length_m

/-- `hours = wallHours + ceilingHours + prepHours` with
`wallHours = wallArea / 20`, `ceilingHours = ceilingArea / 25`,
`prepHours = (wallArea + ceilingArea) / 60`. -/
def roomHours (room : Room) : ℚ :=
  wallArea room / 20 + ceilingArea room / 25 + (wallArea room + ceilingArea room) / 60

/-- `paintLiters = (wallArea + ceilingArea) / 8`. -/
def paintLiters (room : Room) : ℚ := (wallArea room + ceilingArea room) / 8

/-- The labor line item pushed for a room in the `maler` branch. -/
def laborOfferItem (rate : ℚ) (room : Room) : OfferItem :=
  { description := "Malerarbeiten " ++ room.name ++ ": Wände & Decke streichen ("
      ++ toString (round2 (wallArea room + ceilingArea room)) ++ " m²)"
    quantity := round2 (roomHours room)
    unit := "Std"
    unitPrice := rate
    total := round2 (roomHours room * rate) }

/-- The paint material line item pushed for a room (`paintPrice = 6.0`). -/
def paintOfferItem (room : Room) : OfferItem :=
  { description := "Material: Qualitätsfarbe (" ++ toString (round2 (paintLiters room)) ++ " l)"
    quantity := round2 (paintLiters room)
    unit := "l"
    unitPrice := 6
    total := round2 (paintLiters room * 6) }

/-- The line item pushed for an explicit material. -/
def materialOfferItem (m : Material) : OfferItem :=
  { description := "Material: " ++ m.name
    quantity := m.quantity
    unit := m.unit
    unitPrice := m.unitPrice
    total := round2 (m.unitPrice * m.quantity) }

/-- The room-derived items: the `maler` branch guarded by
`input.trade === "maler" && input.project.rooms?.length`. -/
def roomDerivedItems (input : OfferInput) : List OfferItem :=
  match input.trade, input.project.rooms with
  | Trade.maler, some rooms =>
      if rooms.length ≠ 0 then
        rooms.flatMap (fun room => [laborOfferItem input.laborRatePerHour room, paintOfferItem room])
      else []
  | _, _ => []

/-- The explicit-material items: the `if (input.project.materials)` loop. -/
def materialItems (input : OfferInput) : List OfferItem :=
  match input.project.materials with
  | some ms => ms.map materialOfferItem
  | none => []

/-- `generateOffer` from `src/index.ts` (pure part: everything except the
time-based `id` / `createdAt`). -/
def generateOffer (input : OfferInput) : Offer :=
  let items := roomDerivedItems input ++ materialItems input
  let subtotal := round2 (items.foldl (fun s it => s + it.total) 0)
  let marginPct := input.marginPercentage.getD 15
  let margin := round2 (subtotal * marginPct / 100)
  let totalBeforeTax := round2 (subtotal + margin)
  let taxRate := input.taxRatePercentage.getD 19
  let tax := round2 (totalBeforeTax * taxRate / 100)
  let total := round2 (totalBeforeTax + tax)
  { input := input, items := items, subtotal := subtotal, margin := margin,
    totalBeforeTax := totalBeforeTax, tax := tax, total := total, currency := "EUR" }

/-- The room loop of `generateOfferFromInput` in `src/README.md`, whose guard is
`input.trade === 'maler' && input.project.rooms && input.project.rooms.length > 0`. -/
def readmeRoomItems (input : OfferInput) : List OfferItem :=
  match input.trade, input.project.rooms with
  | Trade.maler, some rooms =>
      if rooms.length > 0 then
        rooms.flatMap (fun room =>
          let h := room.height_m.getD (13/5)
          let wA := 2 * (room.width_m + room.length_m) * h
          let cA := room.width_m * room.length_m
          let wallHours := wA / 20
          let ceilHours := cA / 25
          let prepHours := (wA + cA) / 60
          let hours := wallHours + ceilHours + prepHours
          let paintL := (wA + cA) / 8
          let paintPrice : ℚ := 6
          [ { description := "Malerarbeiten " ++ room.name ++ ": Wände & Decke streichen ("
                ++ toString (round2 (wA + cA)) ++ " m²)"
              quantity := round2 hours
              unit := "Std"
              unitPrice := input.laborRatePerHour
              total := round2 (hours * input.laborRatePerHour) },
            { description := "Material: Qualitätsfarbe (" ++ toString (round2 paintL) ++ " l)"
              quantity := round2 paintL
              unit := "l"
              unitPrice := paintPrice
              total := round2 (paintL * paintPrice) } ])
      else []
  | _, _ => []

/-- The `if (input.project.materials)` loop of `generateOfferFromInput` in
`src/README.md`. -/
def readmeMaterialItems (input : OfferInput) : List OfferItem :=
  match input.project.materials with
  | some ms =>
      ms.map (fun m =>
        { description := "Material: " ++ m.name
          quantity := m.quantity
          unit := m.unit
          unitPrice := m.unitPrice
          total := round2 (m.unitPrice * m.quantity) })
  | none => []

/-- `generateOfferFromInput` from the `offerEngine` module embedded in
`src/README.md` (pure part, transcribed independently of `generateOffer`). -/
def generateOfferFromInput (input : OfferInput) : Offer :=
  let currency := "EUR"
  let items := readmeRoomItems input ++ readmeMaterialItems input
  let subtotal := round2 (items.foldl (fun s it => s + it.total) 0)
  let marginPct := input.marginPercentage.getD 15
  let margin := round2 (subtotal * marginPct / 100)
  let totalBeforeTax := round2 (subtotal + margin)
  let taxRate := input.taxRatePercentage.getD 19
  let tax := round2 (totalBeforeTax * taxRate / 100)
  let total := round2 (totalBeforeTax + tax)
  { input := input, items := items, subtotal := subtotal, margin := margin,
    totalBeforeTax := totalBeforeTax, tax := tax, total := total, currency := currency }

/-! ## Concrete inputs used by the scenario claims -/

/-- The room of concrete scenario A: "Living Room", 4 × 5 × 2.6. -/
def roomA : Room :=
  { name := "Living Room", width_m := 4, length_m := 5, height_m := some 2.6 }

/-- Concrete scenario A: trade `maler`, one room, labor rate 55, margin/tax omitted. -/
def inputA : OfferInput :=
  { trade := Trade.maler
    company := { name := "Musterfirma" }
    customer := { name := "Mustermann" }
    project := { title := "Wohnung streichen", rooms := some [roomA] }
    laborRatePerHour := 55 }

/-- Concrete scenario B: trade `boden`, no rooms, one material, margin/tax omitted. -/
def inputB : OfferInput :=
  { trade := Trade.boden
    company := { name := "Musterfirma" }
    customer := { name := "Mustermann" }
    project := { title := "Boden verlegen"
                 materials := some [{ name := "Laminate", unitPrice := 25, quantity := 40,
                                      unit := "m²" }] }
    laborRatePerHour := 55 }

/-- A `maler` input with margin, tax and room height all omitted (used for defaults). -/
def roomC : Room := { name := "Büro", width_m := 3, length_m := 4, height_m := none }

/-- Input with every optional numeric field omitted. -/
def inputC : OfferInput :=
  { trade := Trade.maler
    company := { name := "Musterfirma" }
    customer := { name := "Mustermann" }
    project := { title := "Büro streichen", rooms := some [roomC] }
    laborRatePerHour := 50 }

/-- An `elektro` input with no rooms and no materials (zero-item case). -/
def inputD : OfferInput :=
  { trade := Trade.elektro
    company := { name := "Musterfirma" }
    customer := { name := "Mustermann" }
    project := { title := "Elektroinstallation" }
    laborRatePerHour := 60 }

/-! ## Helper lemmas -/

/-- `round2` written with the `Int.floor` bracket. -/
theorem round2_eq_floor (n : ℚ) : round2 n = (⌊n * 100 + 1/2⌋ : ℚ) / 100 := by
  rw [round2, Rat.floor_def', ← Rat.floor_def]

/-- Rounding to two decimals is idempotent. -/
theorem round2_round2 (n : ℚ) : round2 (round2 n) = round2 n := by
  rw [round2_eq_floor n, round2_eq_floor]
  rw [div_mul_cancel₀ _ (by norm_num : (100 : ℚ) ≠ 0)]
  rw [Int.floor_int_add]
  have h12 : ⌊(1/2 : ℚ)⌋ = 0 := by
    rw [Rat.floor_def]
    norm_num
  rw [h12, add_zero]

/-- `round2 0 = 0`. -/
theorem round2_zero : round2 0 = 0 := by
  rw [round2_eq_floor]
  have : ⌊(0 * 100 + 1/2 : ℚ)⌋ = 0 := by
    rw [Rat.floor_def]
    norm_num
  rw [this]
  norm_num

/-- The engine's `items.reduce((s, it) => s + it.total, 0)` as a sum over the list. -/
theorem foldl_add_total (l : List OfferItem) (a : ℚ) :
    l.foldl (fun s it => s + it.total) a = a + (l.map OfferItem.total).sum := by
  induction l generalizing a with
  | nil => simp
  | cons x xs ih => simp [List.foldl_cons, ih]; ring

/-- Every item total of every offer is `round2` of something (used for idempotence). -/
theorem round2_total_of_mem (input : OfferInput) :
    ∀ it ∈ roomDerivedItems input ++ materialItems input, round2 it.total = it.total := by
  intro it hit
  rcases List.mem_append.1 hit with h | h
  · rw [roomDerivedItems] at h
    rcases htr : input.trade <;> rw [htr] at h <;>
      rcases hro : input.project.rooms with _ | rooms <;> rw [hro] at h <;>
        try exact absurd h (List.not_mem_nil it)
    replace h : it ∈ (if rooms.length ≠ 0 then
        rooms.flatMap (fun room =>
          [laborOfferItem input.laborRatePerHour room, paintOfferItem room])
      else []) := h
    rcases Decidable.em (rooms.length ≠ 0) with hc | hc
    · rw [if_pos hc] at h
      obtain ⟨room, _, hmem⟩ := List.mem_flatMap.1 h
      simp only [List.mem_cons, List.mem_singleton, List.not_mem_nil, or_false] at hmem
      rcases hmem with rfl | rfl
      · rw [laborOfferItem]
        exact round2_round2 _
      · rw [paintOfferItem]
        exact round2_round2 _
    · rw [if_neg hc] at h
      exact absurd h (List.not_mem_nil it)
  · rw [materialItems] at h
    rcases hmo : input.project.materials with _ | ms <;> rw [hmo] at h
    · exact absurd h (List.not_mem_nil it)
    · obtain ⟨m, _, rfl⟩ := List.mem_map.1 h
      rw [materialOfferItem]
      exact round2_round2 _

/-! ## Claims -/

/-- C1: for every `OfferInput`, the `Offer` returned by `generateOffer` satisfies the
roll-up equalities exactly: `subtotal = round2 (Σ item.total)`,
`margin = round2 (subtotal * marginPct / 100)`, `totalBeforeTax = round2 (subtotal + margin)`,
`tax = round2 (totalBeforeTax * taxPct / 100)`, `total = round2 (totalBeforeTax + tax)`,
where `marginPct` / `taxPct` are the input values or the defaults 15 / 19. -/
theorem offer_rollup_equalities (input : OfferInput) :
    (generateOffer input).subtotal
        = round2 (((generateOffer input).items.map OfferItem.total).sum)
    ∧ (generateOffer input).margin
        = round2 ((generateOffer input).subtotal * input.marginPercentage.getD 15 / 100)
    ∧ (generateOffer input).totalBeforeTax
        = round2 ((generateOffer input).subtotal + (generateOffer input).margin)
    ∧ (generateOffer input).tax
        = round2 ((generateOffer input).totalBeforeTax * input.taxRatePercentage.getD 19 / 100)
    ∧ (generateOffer input).total
        = round2 ((generateOffer input).totalBeforeTax + (generateOffer input).tax) := by
  refine ⟨?_, rfl, rfl, rfl, rfl⟩
  have h : (generateOffer input).subtotal
      = round2 ((generateOffer input).items.foldl (fun s it => s + it.total) 0) := rfl
  rw [h, foldl_add_total, zero_add]

/-- C2 (amended): each explicit-material item's total is `round2 (quantity × unitPrice)`
of its own fields, but a room-derived item's total is `round2` of the *unrounded*
hours/liters times the unit price, while its quantity field is the rounded
hours/liters — so its total need not equal `round2 (quantity × unitPrice)`. -/
theorem item_totals_from_unrounded_quantities (input : OfferInput) (rate : ℚ) (room : Room)
    (m : Material) :
    (generateOffer input).items = roomDerivedItems input ++ materialItems input
    ∧ (laborOfferItem rate room).quantity = round2 (roomHours room)
    ∧ (laborOfferItem rate room).total
        = round2 (roomHours room * (laborOfferItem rate room).unitPrice)
    ∧ (paintOfferItem room).quantity = round2 (paintLiters room)
    ∧ (paintOfferItem room).total = round2 (paintLiters room * (paintOfferItem room).unitPrice)
    ∧ (materialOfferItem m).quantity = m.quantity
    ∧ (materialOfferItem m).total
        = round2 ((materialOfferItem m).quantity * (materialOfferItem m).unitPrice) := by
  refine ⟨rfl, rfl, rfl, rfl, rfl, rfl, ?_⟩
  rw [materialOfferItem]
  rw [mul_comm]

/-- C2 (counterexample): in scenario A, the labor item has quantity 4.25 and unit
price 55, yet its total is 233.93 ≠ 233.75 = `round2 (4.25 * 55)`. -/
theorem labor_total_ne_round2_qty_price :
    ((generateOffer inputA).items.headI).total
      ≠ round2 (((generateOffer inputA).items.headI).quantity
          * ((generateOffer inputA).items.headI).unitPrice) := by
  simp only [generateOffer, roomDerivedItems, materialItems, inputA, roomA, laborOfferItem,
    paintOfferItem, roomHours, wallArea, ceilingArea, effHeight, paintLiters, round2,
    Rat.floor_def', List.flatMap, List.map, List.append_nil, List.headI]
  norm_num

/-- C3 (amended): scenario A emits exactly the labor line (4.25 Std at 55, total
233.93 — not 233.75) and the paint line (8.35 l at 6, total 50.1), with
`wallArea = 46.8`, `ceilingArea = 20`, `wallHours = 2.34`, `ceilingHours = 0.8`,
`prepHours = 66.8/60`. -/
theorem scenarioA_items :
    (generateOffer inputA).items.map (fun it => (it.quantity, it.unit, it.unitPrice, it.total))
        = [((4.25 : ℚ), "Std", (55 : ℚ), (233.93 : ℚ)),
           ((8.35 : ℚ), "l", (6 : ℚ), (50.1 : ℚ))]
    ∧ wallArea roomA = 46.8
    ∧ ceilingArea roomA = 20
    ∧ wallArea roomA / 20 = 2.34
    ∧ ceilingArea roomA / 25 = 0.8
    ∧ (wallArea roomA + ceilingArea roomA) / 60 = 66.8 / 60 := by
  refine ⟨?_, ?_, ?_, ?_, ?_, ?_⟩ <;>
    · simp only [generateOffer, roomDerivedItems, materialItems, inputA, roomA, laborOfferItem,
        paintOfferItem, roomHours, wallArea, ceilingArea, effHeight, paintLiters, round2,
        Rat.floor_def', List.flatMap, List.map, List.append_nil]
      norm_num

/-- C3 (counterexample): scenario A's items are not the claimed
`[(4.25, 55, 233.75), (8.35, 6, 50.1)]` — the labor total is 233.93. -/
theorem scenarioA_claimed_items_false :
    (generateOffer inputA).items.map (fun it => (it.quantity, it.unitPrice, it.total))
      ≠ [((4.25 : ℚ), (55 : ℚ), (233.75 : ℚ)), ((8.35 : ℚ), (6 : ℚ), (50.1 : ℚ))] := by
  simp only [generateOffer, roomDerivedItems, materialItems, inputA, roomA, laborOfferItem,
    paintOfferItem, roomHours, wallArea, ceilingArea, effHeight, paintLiters, round2,
    Rat.floor_def', List.flatMap, List.map, List.append_nil]
  norm_num

/-- C4: scenario B yields exactly one item with total 1000.00, subtotal 1000.00,
margin 150.00, totalBeforeTax 1150.00, tax 218.50 and total 1368.50. -/
theorem scenarioB_offer :
    (generateOffer inputB).items.map (fun it => (it.quantity, it.unitPrice, it.total))
        = [((40 : ℚ), (25 : ℚ), (1000 : ℚ))]
    ∧ (generateOffer inputB).subtotal = 1000
    ∧ (generateOffer inputB).margin = 150
    ∧ (generateOffer inputB).totalBeforeTax = 1150
    ∧ (generateOffer inputB).tax = 218.5
    ∧ (generateOffer inputB).total = 1368.5 := by
  refine ⟨?_, ?_, ?_, ?_, ?_, ?_⟩ <;>
    · simp only [generateOffer, roomDerivedItems, materialItems, inputB, materialOfferItem,
        round2, Rat.floor_def', List.map, List.foldl, List.nil_append, Option.getD]
      norm_num

/-- C5: omitted optional fields default — margin at 15% of the subtotal, tax at 19%
of the pre-tax total, and a room with no height uses 2.6 in the area derivation
(the engine raises no error: it is a total function of the input). -/
theorem omitted_fields_default (input : OfferInput) (room : Room) :
    (input.marginPercentage = none →
        (generateOffer input).margin = round2 ((generateOffer input).subtotal * 15 / 100))
    ∧ (input.taxRatePercentage = none →
        (generateOffer input).tax = round2 ((generateOffer input).totalBeforeTax * 19 / 100))
    ∧ (room.height_m = none →
        effHeight room = 2.6
        ∧ wallArea room = 2 * (room.width_m + room.length_m) * 2.6) := by
  refine ⟨fun h => ?_, fun h => ?_, fun h => ⟨?_, ?_⟩⟩
  · have e : (generateOffer input).margin
        = round2 ((generateOffer input).subtotal * input.marginPercentage.getD 15 / 100) := rfl
    rw [e, h, Option.getD_none]
  · have e : (generateOffer input).tax
        = round2 ((generateOffer input).totalBeforeTax * input.taxRatePercentage.getD 19 / 100) :=
      rfl
    rw [e, h, Option.getD_none]
  · rw [effHeight, h, Option.getD_none]
    norm_num
  · rw [wallArea, effHeight, h, Option.getD_none]
    norm_num

/-- C5 (witness): the defaults theorem applied to the concrete `inputC` / `roomC`,
which omit margin, tax and room height. -/
theorem omitted_fields_default_witness :
    ((generateOffer inputC).margin = round2 ((generateOffer inputC).subtotal * 15 / 100))
    ∧ ((generateOffer inputC).tax = round2 ((generateOffer inputC).totalBeforeTax * 19 / 100))
    ∧ (effHeight roomC = 2.6
        ∧ wallArea roomC = 2 * (roomC.width_m + roomC.length_m) * 2.6) := by
  obtain ⟨h1, h2, h3⟩ := omitted_fields_default inputC roomC
  exact ⟨h1 rfl, h2 rfl, h3 rfl⟩

/-- C6: an `elektro` input with no rooms and no materials yields an empty item list
and subtotal, margin, tax and total all exactly 0. -/
theorem elektro_zero_offer (input : OfferInput)
    (ht : input.trade = Trade.elektro)
    (_hr : input.project.rooms = none ∨ input.project.rooms = some [])
    (hm : input.project.materials = none ∨ input.project.materials = some []) :
    (generateOffer input).items = []
    ∧ (generateOffer input).subtotal = 0
    ∧ (generateOffer input).margin = 0
    ∧ (generateOffer input).tax = 0
    ∧ (generateOffer input).total = 0 := by
  have hri : roomDerivedItems input = [] := by
    rw [roomDerivedItems, ht]
  have hmi : materialItems input = [] := by
    rcases hm with h | h <;> simp [materialItems, h]
  have hitems : (generateOffer input).items = [] := by
    show roomDerivedItems input ++ materialItems input = []
    rw [hri, hmi]
    rfl
  have hsub : (generateOffer input).subtotal = 0 := by
    have e : (generateOffer input).subtotal
        = round2 ((generateOffer input).items.foldl (fun s it => s + it.total) 0) := rfl
    rw [e, hitems]
    simpa using round2_zero
  have hmar : (generateOffer input).margin = 0 := by
    have e : (generateOffer input).margin
        = round2 ((generateOffer input).subtotal * input.marginPercentage.getD 15 / 100) := rfl
    rw [e, hsub]
    simpa using round2_zero
  have htbt : (generateOffer input).totalBeforeTax = 0 := by
    have e : (generateOffer input).totalBeforeTax
        = round2 ((generateOffer input).subtotal + (generateOffer input).margin) := rfl
    rw [e, hsub, hmar]
    simpa using round2_zero
  have htax : (generateOffer input).tax = 0 := by
    have e : (generateOffer input).tax
        = round2 ((generateOffer input).totalBeforeTax * input.taxRatePercentage.getD 19 / 100) :=
      rfl
    rw [e, htbt]
    simpa using round2_zero
  have htot : (generateOffer input).total = 0 := by
    have e : (generateOffer input).total
        = round2 ((generateOffer input).totalBeforeTax + (generateOffer input).tax) := rfl
    rw [e, htbt, htax]
    simpa using round2_zero
  exact ⟨hitems, hsub, hmar, htax, htot⟩

/-- C6 (witness): the zero-item theorem applied to the concrete `inputD`. -/
theorem elektro_zero_offer_witness :
    (generateOffer inputD).items = []
    ∧ (generateOffer inputD).subtotal = 0
    ∧ (generateOffer inputD).margin = 0
    ∧ (generateOffer inputD).tax = 0
    ∧ (generateOffer inputD).total = 0 :=
  elektro_zero_offer inputD rfl (Or.inl rfl) (Or.inl rfl)

/-- C7: the item list is the room-derived items (labor line then paint line, per
room in input order, only for `maler` with rooms) followed by one item per
explicit material in input order. -/
theorem items_follow_input_order (input : OfferInput) :
    (generateOffer input).items
      = (if input.trade = Trade.maler then
            (input.project.rooms.getD []).flatMap
              (fun room => [laborOfferItem input.laborRatePerHour room, paintOfferItem room])
          else [])
        ++ (input.project.materials.getD []).map materialOfferItem := by
  obtain ⟨trade, co, cu, ⟨title, desc, rooms, mats, notes⟩, rate, mp, tp⟩ := input
  show roomDerivedItems _ ++ materialItems _ = _
  rcases mats with _ | ms <;>
    rcases rooms with _ | (_ | ⟨r, rs⟩) <;>
      cases trade <;>
        simp [roomDerivedItems, materialItems]

/-- C8: every monetary field of the returned offer is a fixed point of `round2`
(item totals, subtotal, margin, totalBeforeTax, tax, total). -/
theorem monetary_fields_round2_fixed (input : OfferInput) :
    ((generateOffer input).items.map OfferItem.total).map round2
        = (generateOffer input).items.map OfferItem.total
    ∧ round2 (generateOffer input).subtotal = (generateOffer input).subtotal
    ∧ round2 (generateOffer input).margin = (generateOffer input).margin
    ∧ round2 (generateOffer input).totalBeforeTax = (generateOffer input).totalBeforeTax
    ∧ round2 (generateOffer input).tax = (generateOffer input).tax
    ∧ round2 (generateOffer input).total = (generateOffer input).total := by
  refine ⟨?_, round2_round2 _, round2_round2 _, round2_round2 _, round2_round2 _,
    round2_round2 _⟩
  rw [List.map_map]
  refine List.map_congr_left ?_
  intro it hit
  exact round2_total_of_mem input it hit

/-- C9: the engine is total — it accepts every numerically well-formed input
(zero or negative dimensions and a zero labor rate included), echoes the input,
fixes the currency, and a zero labor rate merely produces zero-cost labor lines. -/
theorem engine_total_on_all_inputs (input : OfferInput) :
    (generateOffer input).input = input
    ∧ (generateOffer input).currency = "EUR"
    ∧ ∀ room : Room, (laborOfferItem 0 room).total = 0 := by
  refine ⟨rfl, rfl, fun room => ?_⟩
  show round2 (roomHours room * 0) = 0
  rw [mul_zero, round2_zero]

/-- C10: the engine copy embedded in `src/README.md` (`generateOfferFromInput`)
and the one in `src/index.ts` (`generateOffer`) agree on every modelled field —
items, subtotal, margin, totalBeforeTax, tax, total and currency (the time-based
`id` / `createdAt` are outside the pure model). -/
theorem engines_extensionally_equal (input : OfferInput) :
    generateOfferFromInput input = generateOffer input := by
  have hroom : readmeRoomItems input = roomDerivedItems input := by
    obtain ⟨trade, co, cu, ⟨title, desc, rooms, mats, notes⟩, rate, mp, tp⟩ := input
    rcases rooms with _ | (_ | ⟨r, rs⟩) <;> cases trade <;>
      simp [readmeRoomItems, roomDerivedItems, laborOfferItem, paintOfferItem, roomHours,
        wallArea, ceilingArea, effHeight, paintLiters]
  have hmat : readmeMaterialItems input = materialItems input := rfl
  simp only [generateOfferFromInput, generateOffer]
  rw [hroom, hmat]

end Calcura
